import Mathlib

/-!
Shallow embedding of the repository `llm-agents-learn`:
  * `src/utils/env_loader.py` — environment-variable loading, lookup and
    batch validation;
  * `src/mcp_ai_agents/github_mcp_agent/github_agent_documented.py` — the
    GitHub MCP agent: query composition, launch descriptor for the external
    tool server, and the credential-checked, timeout-bounded agent call.

A process environment is modelled as a partial map `String → Option String`
(`none` = variable unset; `some ""` = set to the empty string, which Python
treats as falsy). Effectful code is embedded as pure functions over an
explicit environment together with an oracle for the single external call,
returning the result string plus the trace of external events performed.
-/

namespace EnvLoader

/-- Python truthiness of an optional string value: `None` and `""` are falsy,
every other string is truthy. -/
def truthy : Option String → Bool
  | none => false
  | some s => s ≠ ""

/-- Embeds `os.getenv(key, default)`: the environment value when the variable is
present (even if empty), otherwise the default. -/
def pyGetenv (env : String → Option String) (key : String)
    (default : Option String) : Option String :=
  match env key with
  | some v => some v
  | none => default

/-- Embeds the Python expression `sep.join(items)`. -/
def pyJoin (sep : String) : List String → String
  | [] => ""
  | [x] => x
  | x :: y :: xs => x ++ sep ++ pyJoin sep (y :: xs)

/-- The masking computed inside `get_api_key` (env_loader.py lines 84-88):

    if value and len(value) > 8:
        masked = f"\x7bvalue[:4]\x7d...\x7bvalue[-4:]\x7d"
    else:
        masked = "***" if value else "Not Set"

Python slices `value[:4]` / `value[-4:]` are character slices, embedded as
list operations on the character list of the string. -/
def maskValue : Option String → String
  | none => "Not Set"
  | some v =>
    if v.length > 8 then
      String.mk (v.data.take 4) ++ "..." ++ String.mk (v.data.drop (v.data.length - 4))
    else if v = "" then "Not Set" else "***"

/-- Error message raised by `get_api_key` for a missing required key. -/
def missingKeyMsg (key_name : String) : String :=
  "❌ " ++ key_name ++ " not found in environment variables.\n" ++
    "Please set it in your .env file or environment."

/-- Embeds `get_api_key(key_name, default, required)` (env_loader.py lines 57-90):
reads `os.getenv(key_name, default)`; if `required` and the value is falsy it
raises `ValueError` naming the variable; otherwise it computes the unused
display mask and returns the value. Raising is embedded as `Except.error`
carrying the message. -/
def get_api_key (env : String → Option String) (key_name : String)
    (default : Option String) (required : Bool) : Except String (Option String) :=
  let value := pyGetenv env key_name default
  if required && !truthy value then
    .error (missingKeyMsg key_name)
  else
    let _masked := maskValue value
    .ok value

/-- Error message raised by `validate_required_keys`. -/
def missingKeysMsg (missing_keys : List String) : String :=
  "❌ Missing required environment variables:\n" ++
    pyJoin ", " missing_keys ++ "\nPlease set them in your .env file."

/-- Embeds `validate_required_keys(*key_names)` (env_loader.py lines 167-193):
collects every name whose environment value is falsy; if any, raises
`ValueError` listing them all, comma-joined; otherwise returns `True`. -/
def validate_required_keys (env : String → Option String)
    (key_names : List String) : Except String Bool :=
  let missing_keys := key_names.filter (fun key => !truthy (env key))
  if !missing_keys.isEmpty then
    .error (missingKeysMsg missing_keys)
  else
    .ok true

/-- Embeds `Path.parent` on a directory given as its component list from the root;
the parent of the root is the root itself, as in `pathlib`. -/
def parentDir (dir : List String) : List String := dir.dropLast

/-- The search loop of `load_env` (env_loader.py lines 38-44): up to `fuel`
levels, check `current_dir / env_file` and otherwise move to the parent.
Returns the directory in which the file was found. -/
def findEnvFileAux (fileExists : List String → String → Bool)
    (env_file : String) : Nat → List String → Option (List String)
  | 0, _ => none
  | n + 1, dir =>
    if fileExists dir env_file then some dir
    else findEnvFileAux fileExists env_file n (parentDir dir)

/-- The full search of `load_env`: the working directory and up to two parents
(`for _ in range(3)`). -/
def findEnvFile (fileExists : List String → String → Bool)
    (cwd : List String) (env_file : String) : Option (List String) :=
  findEnvFileAux fileExists env_file 3 cwd

/-- Model of `dotenv.load_dotenv(path)` with default arguments (the documented
`override=False` behaviour of the python-dotenv library): a variable already
present in the process environment keeps its value; only unset variables
receive entries from the file. `fileVars` is the key/value content of the file being loaded. -/
def load_dotenv (fileVars : String → Option String)
    (env : String → Option String) : String → Option String :=
  fun key =>
    match env key with
    | some v => some v
    | none => fileVars key

/-- Embeds `load_env(env_file)` (env_loader.py lines 23-54): search three directory
levels for the file; if found, apply it via `load_dotenv` and return `True`,
otherwise return `False` with the environment unchanged. The returned pair is
(boolean result, resulting environment). `fileExists dir name` abstracts
`(dir / name).exists()` and `fileVars dir` the key/value contents of the
settings file in directory `dir`. -/
def load_env (fileExists : List String → String → Bool)
    (fileVars : List String → String → Option String)
    (cwd : List String) (env_file : String)
    (env : String → Option String) : Bool × (String → Option String) :=
  match findEnvFile fileExists cwd env_file with
  | some dir => (true, load_dotenv (fileVars dir) env)
  | none => (false, env)

end EnvLoader

namespace GithubAgent

open EnvLoader

/-- Composition of the dispatched query (github_agent_documented.py lines
289-293):

    if repo and repo not in query:
        full_query = f"\x7bquery\x7d in \x7brepo\x7d"
    else:
        full_query = query

In Python, `repo not in query` is negated substring containment, embedded as infix of
the character lists. -/
def full_query (query repo : String) : String :=
  if repo ≠ "" ∧ ¬ (repo.data <:+: query.data) then
    query ++ " in " ++ repo
  else
    query

/-- The fixed capability list injected as `GITHUB_TOOLSETS`. -/
def github_toolsets : String := "repos,issues,pull_requests"

/-- The command of the tool-server launch descriptor. -/
def server_params_command : String := "docker"

/-- The argument list of the tool-server launch descriptor. -/
def server_params_args : List String :=
  ["run", "-i", "--rm", "-e", "GITHUB_PERSONAL_ACCESS_TOKEN",
   "-e", "GITHUB_TOOLSETS", "ghcr.io/github/github-mcp-server"]

/-- The environment map of the launch descriptor (lines 209-213):

    env={**os.environ,
         "GITHUB_PERSONAL_ACCESS_TOKEN": os.getenv("GITHUB_TOKEN"),
         "GITHUB_TOOLSETS": "repos,issues,pull_requests"}

Dict-literal semantics: the two explicit entries are written after the splat,
so they win over any inherited entries for the same keys. -/
def server_params_env (env : String → Option String) : String → Option String :=
  fun key =>
    if key = "GITHUB_PERSONAL_ACCESS_TOKEN" then env "GITHUB_TOKEN"
    else if key = "GITHUB_TOOLSETS" then some github_toolsets
    else env key

/-- Outcome of the single bounded call `asyncio.wait_for(agent.arun(message),
timeout=120.0)` inside the `async with MCPTools(...)` block, abstracted as an
oracle: the agent answers, the 120-second timeout fires, or the call (or the
tool connection in use) raises some other exception with a description. -/
inductive AgentOutcome
  | success (content : String)
  | timeout
  | failure (desc : String)
deriving DecidableEq

/-- External events `run_github_agent` can perform, in order: launching the
tool-server process, opening the MCP connection, issuing the remote call, and
releasing (disconnecting) the connection when the `async with` block exits. -/
inductive Event
  | launch
  | connect
  | remoteCall
  | disconnect
deriving DecidableEq

/-- The timeout bound of the remote call, from `timeout=120.0`. -/
def timeout_seconds : Nat := 120

/-- Embeds `run_github_agent(message)` (github_agent_documented.py lines 163-263):
check `GITHUB_TOKEN`, then `OPENAI_API_KEY`, returning the fixed error string
with no external action if either is falsy; otherwise enter the
`async with MCPTools(server_params)` block (launch + connect), issue the one
remote call, and map the outcome: success returns the content of the agent response, a
`TimeoutError` the fixed timed-out message, any other exception `e` the
string `f"Error: \x7bstr(e)\x7d"`. The context manager releases the
connection on every exit path out of the block, so `.disconnect` closes the
trace in all three cases. Returns (result string, event trace). -/
def run_github_agent (env : String → Option String) (outcome : AgentOutcome)
    (_message : String) : String × List Event :=
  if !truthy (env "GITHUB_TOKEN") then
    ("Error: GitHub token not provided", [])
  else if !truthy (env "OPENAI_API_KEY") then
    ("Error: OpenAI API key not provided", [])
  else
    match outcome with
    | .success content =>
      (content, [.launch, .connect, .remoteCall, .disconnect])
    | .timeout =>
      ("Error: Request timed out after 120 seconds",
       [.launch, .connect, .remoteCall, .disconnect])
    | .failure desc =>
      ("Error: " ++ desc, [.launch, .connect, .remoteCall, .disconnect])

end GithubAgent

/-! ## Helper lemmas -/

namespace EnvLoader

theorem truthy_some_true_iff (s : String) : truthy (some s) = true ↔ s ≠ "" := by
  simp [truthy]

theorem sub_append_middle {α : Type} (pre mid suf t : List α) (h : t <:+: mid) :
    t <:+: pre ++ mid ++ suf := by
  obtain ⟨s, u, hs⟩ := h
  exact ⟨pre ++ s, u ++ suf, by simp [← hs]⟩

theorem mem_sub_pyJoin (sep : String) (l : List String) (k : String) (hk : k ∈ l) :
    k.data <:+: (pyJoin sep l).data := by
  induction l with
  | nil => cases hk
  | cons x xs ih =>
    cases xs with
    | nil =>
      have hx : k = x := by simpa using hk
      subst hx
      exact ⟨[], [], by simp [pyJoin]⟩
    | cons y ys =>
      rcases List.mem_cons.mp hk with rfl | hk2
      · exact ⟨[], (sep ++ pyJoin sep (y :: ys)).data,
          by simp [pyJoin, String.data_append]⟩
      · obtain ⟨s, u, hs⟩ := ih hk2
        exact ⟨(x ++ sep).data ++ s, u,
          by simp [pyJoin, String.data_append, ← hs]⟩

theorem mem_sub_missingKeysMsg (l : List String) (k : String) (hk : k ∈ l) :
    k.data <:+: (missingKeysMsg l).data := by
  have h := mem_sub_pyJoin ", " l k hk
  obtain ⟨s, u, hs⟩ := h
  refine ⟨("❌ Missing required environment variables:\n").data ++ s,
    u ++ ("\nPlease set them in your .env file.").data, ?_⟩
  simp [missingKeysMsg, String.data_append, ← hs]

theorem key_sub_missingKeyMsg (k : String) : k.data <:+: (missingKeyMsg k).data := by
  refine ⟨("❌ ").data,
    (" not found in environment variables.\n").data ++
      ("Please set it in your .env file or environment.").data, ?_⟩
  simp [missingKeyMsg, String.data_append]

theorem validate_ok_of_all_truthy (env : String → Option String)
    (key_names : List String) (hall : ∀ k ∈ key_names, truthy (env k) = true) :
    validate_required_keys env key_names = .ok true := by
  have hfil : key_names.filter (fun key => !truthy (env key)) = [] := by
    rw [List.filter_eq_nil_iff]
    intro a ha
    simp [hall a ha]
  simp [validate_required_keys, hfil]

theorem validate_error_of_missing (env : String → Option String)
    (key_names : List String) (k : String) (hk : k ∈ key_names)
    (hf : truthy (env k) = false) :
    ∃ msg, validate_required_keys env key_names = .error msg ∧
      ∀ k2 ∈ key_names, truthy (env k2) = false → k2.data <:+: msg.data := by
  have hmem : k ∈ key_names.filter (fun key => !truthy (env key)) := by
    simp [List.mem_filter, hk, hf]
  rcases hfl : key_names.filter (fun key => !truthy (env key)) with _ | ⟨a, as⟩
  · rw [hfl] at hmem
    cases hmem
  · refine ⟨missingKeysMsg (a :: as), ?_, ?_⟩
    · simp [validate_required_keys, hfl]
    · intro k2 hk2 hf2
      have hm2 : k2 ∈ key_names.filter (fun key => !truthy (env key)) := by
        simp [List.mem_filter, hk2, hf2]
      rw [hfl] at hm2
      exact mem_sub_missingKeysMsg (a :: as) k2 hm2

theorem get_api_key_ok_of_truthy (env : String → Option String)
    (key_name : String) (default : Option String) (required : Bool)
    (h : truthy (pyGetenv env key_name default) = true) :
    get_api_key env key_name default required = .ok (pyGetenv env key_name default) := by
  simp [get_api_key, h]

theorem get_api_key_error_of_falsy (env : String → Option String)
    (key_name : String) (default : Option String)
    (h : truthy (pyGetenv env key_name default) = false) :
    get_api_key env key_name default true = .error (missingKeyMsg key_name) := by
  simp [get_api_key, h]

theorem get_api_key_not_required (env : String → Option String)
    (key_name : String) (default : Option String) :
    get_api_key env key_name default false = .ok (pyGetenv env key_name default) := by
  simp [get_api_key]

theorem get_api_key_ok_val (env : String → Option String)
    (key_name : String) (default : Option String) (required : Bool)
    (w : Option String) (hw : get_api_key env key_name default required = .ok w) :
    w = pyGetenv env key_name default := by
  by_cases hc : (required && !truthy (pyGetenv env key_name default)) = true
  · simp [get_api_key, hc] at hw
  · simp [get_api_key, hc] at hw
    exact hw.symm

theorem load_dotenv_keeps (f env : String → Option String) (key v : String)
    (h : env key = some v) : load_dotenv f env key = some v := by
  simp [load_dotenv, h]

theorem findEnvFile_eq (fileExists : List String → String → Bool)
    (cwd : List String) (env_file : String) :
    findEnvFile fileExists cwd env_file =
      if fileExists cwd env_file then some cwd
      else if fileExists (parentDir cwd) env_file then some (parentDir cwd)
      else if fileExists (parentDir (parentDir cwd)) env_file then
        some (parentDir (parentDir cwd))
      else none := rfl

end EnvLoader

/-! ## Concrete inputs used by the witness theorems -/

namespace EnvLoader

/-- An environment with only the AI-provider key set. -/
def envW1 : String → Option String := fun key =>
  if key = "OPENAI_API_KEY" then some "sk-test-key-12345" else none

/-- An environment with both credentials set. -/
def envW2 : String → Option String := fun key =>
  if key = "GITHUB_TOKEN" then some "ghp-token-12345"
  else if key = "OPENAI_API_KEY" then some "sk-test-key-12345"
  else none

/-- An environment with only the GitHub token set. -/
def envW3 : String → Option String := fun key =>
  if key = "GITHUB_TOKEN" then some "ghp-token-12345" else none

/-- An environment with one variable set to the empty string. -/
def envW4 : String → Option String := fun key =>
  if key = "EMPTY_KEY" then some "" else none

/-- An environment with one unrelated variable set. -/
def envW5 : String → Option String := fun key =>
  if key = "KEEP" then some "kept" else none

/-- A filesystem in which `.env` exists only in the directory `/home`. -/
def fsW : List String → String → Bool := fun dir name =>
  dir == ["home"] && name == ".env"

/-- Contents of the settings file used by the witness. -/
def fvW : List String → String → Option String := fun _ key =>
  if key = "NEW_KEY" then some "new-value" else none

/-- A working directory two levels below `/home`. -/
def cwdW : List String := ["home", "user", "proj"]

end EnvLoader

/-! ## Claim theorems -/

namespace EnvLoader

/-- C1: for every set of required names given to `validate_required_keys`,
if at least one name has a falsy environment value the call fails with a
missing-configuration error whose message lists every absent name (each
absent name occurs in the message), not only the first; if every name has a
value it returns `true` without failing. -/
theorem validate_required_keys_lists_every_missing
    (env : String → Option String) (key_names : List String) :
    ((∀ k ∈ key_names, truthy (env k) = true) →
      validate_required_keys env key_names = .ok true) ∧
    ((∃ k ∈ key_names, truthy (env k) = false) →
      ∃ msg, validate_required_keys env key_names = .error msg ∧
        ∀ k ∈ key_names, truthy (env k) = false → k.data <:+: msg.data) := by
  constructor
  · exact validate_ok_of_all_truthy env key_names
  · rintro ⟨k, hk, hf⟩
    exact validate_error_of_missing env key_names k hk hf

/-- Witness for C1 at a concrete environment in which `GITHUB_TOKEN` and
`NOTION_API_KEY` are absent and `OPENAI_API_KEY` is set: validation fails and
the message mentions both absent names. -/
theorem validate_required_keys_lists_every_missing_witness :
    validate_required_keys envW2 ["GITHUB_TOKEN", "OPENAI_API_KEY"] = .ok true ∧
    (∃ k ∈ ["GITHUB_TOKEN", "OPENAI_API_KEY", "NOTION_API_KEY"],
      truthy (envW1 k) = false) ∧
    (∃ msg, validate_required_keys envW1
        ["GITHUB_TOKEN", "OPENAI_API_KEY", "NOTION_API_KEY"] = .error msg ∧
      ∀ k ∈ ["GITHUB_TOKEN", "OPENAI_API_KEY", "NOTION_API_KEY"],
        truthy (envW1 k) = false → k.data <:+: msg.data) :=
  ⟨(validate_required_keys_lists_every_missing envW2
      ["GITHUB_TOKEN", "OPENAI_API_KEY"]).1 (by decide),
   by decide,
   (validate_required_keys_lists_every_missing envW1
      ["GITHUB_TOKEN", "OPENAI_API_KEY", "NOTION_API_KEY"]).2 (by decide)⟩

end EnvLoader

namespace EnvLoader

/-- C8: `get_api_key` returns the environment value when the variable is set
(to a non-empty value), returns the default when the variable is unset and a
(non-empty) default is given, fails with a missing-configuration error naming
the variable when `required` is true and no truthy value resolves, and with
`required` false never fails, returning the resolved value (which is the
absent value `none` when nothing resolves). -/
theorem get_api_key_resolution (env : String → Option String)
    (key_name : String) (default : Option String) (required : Bool) :
    (∀ v, env key_name = some v → v ≠ "" →
      get_api_key env key_name default required = .ok (some v)) ∧
    (∀ d, env key_name = none → default = some d → d ≠ "" →
      get_api_key env key_name default required = .ok (some d)) ∧
    (required = true → truthy (pyGetenv env key_name default) = false →
      get_api_key env key_name default required = .error (missingKeyMsg key_name) ∧
        key_name.data <:+: (missingKeyMsg key_name).data) ∧
    (required = false →
      get_api_key env key_name default required = .ok (pyGetenv env key_name default)) := by
  refine ⟨?_, ?_, ?_, ?_⟩
  · intro v hv hne
    have hres : pyGetenv env key_name default = some v := by simp [pyGetenv, hv]
    have ht : truthy (pyGetenv env key_name default) = true := by
      rw [hres]
      exact (truthy_some_true_iff v).mpr hne
    have := get_api_key_ok_of_truthy env key_name default required ht
    rw [hres] at this
    exact this
  · intro d hv hd hne
    have hres : pyGetenv env key_name default = some d := by simp [pyGetenv, hv, hd]
    have ht : truthy (pyGetenv env key_name default) = true := by
      rw [hres]
      exact (truthy_some_true_iff d).mpr hne
    have := get_api_key_ok_of_truthy env key_name default required ht
    rw [hres] at this
    exact this
  · intro hreq hf
    subst hreq
    exact ⟨get_api_key_error_of_falsy env key_name default hf,
      key_sub_missingKeyMsg key_name⟩
  · intro hreq
    subst hreq
    exact get_api_key_not_required env key_name default

/-- Witness for C8 at concrete inputs: a set variable is returned, a default
fills in for an unset variable, a required unset variable fails, and a
non-required unset variable resolves to the absent value. -/
theorem get_api_key_resolution_witness :
    (envW2 "GITHUB_TOKEN" = some "ghp-token-12345" ∧
      get_api_key envW2 "GITHUB_TOKEN" none true = .ok (some "ghp-token-12345")) ∧
    (envW1 "GITHUB_TOKEN" = none ∧
      get_api_key envW1 "GITHUB_TOKEN" (some "dflt-value") true = .ok (some "dflt-value")) ∧
    (truthy (pyGetenv envW1 "GITHUB_TOKEN" none) = false ∧
      get_api_key envW1 "GITHUB_TOKEN" none true = .error (missingKeyMsg "GITHUB_TOKEN") ∧
      ("GITHUB_TOKEN").data <:+: (missingKeyMsg "GITHUB_TOKEN").data) ∧
    get_api_key envW1 "GITHUB_TOKEN" none false = .ok (pyGetenv envW1 "GITHUB_TOKEN" none) :=
  ⟨⟨by decide, (get_api_key_resolution envW2 "GITHUB_TOKEN" none true).1
      "ghp-token-12345" (by decide) (by decide)⟩,
   ⟨by decide, (get_api_key_resolution envW1 "GITHUB_TOKEN" (some "dflt-value") true).2.1
      "dflt-value" (by decide) (by decide) (by decide)⟩,
   ⟨by decide, (get_api_key_resolution envW1 "GITHUB_TOKEN" none true).2.2.1
      (by decide) (by decide)⟩,
   (get_api_key_resolution envW1 "GITHUB_TOKEN" none false).2.2.2 (by decide)⟩

end EnvLoader

namespace EnvLoader

/-- C9: the masking helper renders every non-empty secret value of length at
most 8 as the fixed placeholder `***`, renders longer values as the first
four and last four characters around the elision marker `...` (an 11-character
rendering), and the mask never affects the value `get_api_key` returns: every
successful result is exactly the resolved value. -/
theorem maskValue_display_only (v : String) (env : String → Option String)
    (key_name : String) (default : Option String) (required : Bool) :
    (v ≠ "" → v.length ≤ 8 → maskValue (some v) = "***") ∧
    (v.length > 8 →
      (maskValue (some v)).data =
        v.data.take 4 ++ ("...").data ++ v.data.drop (v.data.length - 4) ∧
      (maskValue (some v)).length = 11) ∧
    (∀ w, get_api_key env key_name default required = .ok w →
      w = pyGetenv env key_name default) := by
  refine ⟨?_, ?_, fun w hw => get_api_key_ok_val env key_name default required w hw⟩
  · intro hne h8
    have hnot : ¬ v.length > 8 := by omega
    simp [maskValue, hnot, hne]
  · intro h8
    have hd : v.data.length > 8 := h8
    constructor
    · simp [maskValue, h8, String.data_append]
    · have h3 : ("...").length = 3 := rfl
      simp [maskValue, h8, String.length_append, String.length_mk,
        List.length_take, List.length_drop, h3]
      omega

/-- Witness for C9: a short value masks to `***`, a 17-character value masks
to its first and last four characters, and a successful lookup returns the
resolved value itself. -/
theorem maskValue_display_only_witness :
    ("short" ≠ "" ∧ ("short").length ≤ 8 ∧ maskValue (some "short") = "***") ∧
    (("sk-test-key-12345").length > 8 ∧
      (maskValue (some "sk-test-key-12345")).data =
        ("sk-test-key-12345").data.take 4 ++ ("...").data ++
          ("sk-test-key-12345").data.drop (("sk-test-key-12345").data.length - 4) ∧
      (maskValue (some "sk-test-key-12345")).length = 11) ∧
    (get_api_key envW2 "GITHUB_TOKEN" none true = .ok (some "ghp-token-12345") ∧
      (some "ghp-token-12345" : Option String) = pyGetenv envW2 "GITHUB_TOKEN" none) :=
  ⟨⟨by decide, by decide,
      (maskValue_display_only "short" envW2 "GITHUB_TOKEN" none true).1
        (by decide) (by decide)⟩,
   ⟨by decide,
      (maskValue_display_only "sk-test-key-12345" envW2 "GITHUB_TOKEN" none true).2.1
        (by decide)⟩,
   ⟨by rfl,
      (maskValue_display_only "x" envW2 "GITHUB_TOKEN" none true).2.2
        (some "ghp-token-12345") (by rfl)⟩⟩

/-- C10: a variable set to the empty string is treated as missing at the
public interface: `get_api_key` with `required = true` fails for it naming the
variable, an empty-string default does not satisfy the requirement either, and
`validate_required_keys` lists such a name among the missing names. -/
theorem empty_value_treated_missing (env env2 : String → Option String)
    (key_name : String) (default : Option String) (keys : List String) :
    (env key_name = some "" →
      get_api_key env key_name default true = .error (missingKeyMsg key_name) ∧
        key_name.data <:+: (missingKeyMsg key_name).data) ∧
    (env2 key_name = none →
      get_api_key env2 key_name (some "") true = .error (missingKeyMsg key_name)) ∧
    (env key_name = some "" → key_name ∈ keys →
      ∃ msg, validate_required_keys env keys = .error msg ∧
        key_name.data <:+: msg.data) := by
  refine ⟨?_, ?_, ?_⟩
  · intro h
    have hf : truthy (pyGetenv env key_name default) = false := by
      simp [pyGetenv, h, truthy]
    exact ⟨get_api_key_error_of_falsy env key_name default hf,
      key_sub_missingKeyMsg key_name⟩
  · intro h
    have hf : truthy (pyGetenv env2 key_name (some "")) = false := by
      simp [pyGetenv, h, truthy]
    exact get_api_key_error_of_falsy env2 key_name (some "") hf
  · intro h hk
    have hf : truthy (env key_name) = false := by simp [h, truthy]
    obtain ⟨msg, hmsg, hall⟩ := validate_error_of_missing env keys key_name hk hf
    exact ⟨msg, hmsg, hall key_name hk hf⟩

/-- Witness for C10 at a concrete environment in which `EMPTY_KEY` is set to
the empty string. -/
theorem empty_value_treated_missing_witness :
    (envW4 "EMPTY_KEY" = some "" ∧
      get_api_key envW4 "EMPTY_KEY" none true = .error (missingKeyMsg "EMPTY_KEY") ∧
        ("EMPTY_KEY").data <:+: (missingKeyMsg "EMPTY_KEY").data) ∧
    (envW1 "EMPTY_KEY" = none ∧
      get_api_key envW1 "EMPTY_KEY" (some "") true = .error (missingKeyMsg "EMPTY_KEY")) ∧
    (("EMPTY_KEY" : String) ∈ ["EMPTY_KEY", "OPENAI_API_KEY"] ∧
      ∃ msg, validate_required_keys envW4 ["EMPTY_KEY", "OPENAI_API_KEY"] = .error msg ∧
        ("EMPTY_KEY").data <:+: msg.data) :=
  ⟨⟨by decide, (empty_value_treated_missing envW4 envW1 "EMPTY_KEY" none
      ["EMPTY_KEY", "OPENAI_API_KEY"]).1 (by decide)⟩,
   ⟨by decide, (empty_value_treated_missing envW4 envW1 "EMPTY_KEY" none
      ["EMPTY_KEY", "OPENAI_API_KEY"]).2.1 (by decide)⟩,
   ⟨by decide, (empty_value_treated_missing envW4 envW1 "EMPTY_KEY" none
      ["EMPTY_KEY", "OPENAI_API_KEY"]).2.2 (by decide) (by decide)⟩⟩

end EnvLoader

namespace EnvLoader

/-- C6: `load_env` searches the working directory and up to two parent
directories: its boolean result is true exactly when the file exists at one
of the three levels; when the file exists two levels above the working
directory and at neither lower level it is the one found and applied; and
variables already set in the process environment are never overwritten by
file contents. -/
theorem load_env_search_and_no_override
    (fileExists : List String → String → Bool)
    (fileVars : List String → String → Option String)
    (cwd : List String) (env_file : String) (env : String → Option String) :
    ((load_env fileExists fileVars cwd env_file env).1 = true ↔
      (fileExists cwd env_file = true ∨ fileExists (parentDir cwd) env_file = true ∨
        fileExists (parentDir (parentDir cwd)) env_file = true)) ∧
    (fileExists cwd env_file = false → fileExists (parentDir cwd) env_file = false →
      fileExists (parentDir (parentDir cwd)) env_file = true →
      load_env fileExists fileVars cwd env_file env =
        (true, load_dotenv (fileVars (parentDir (parentDir cwd))) env)) ∧
    (∀ key v, env key = some v →
      (load_env fileExists fileVars cwd env_file env).2 key = some v) := by
  refine ⟨?_, ?_, ?_⟩
  · cases h0 : fileExists cwd env_file <;>
      cases h1 : fileExists (parentDir cwd) env_file <;>
        cases h2 : fileExists (parentDir (parentDir cwd)) env_file <;>
          simp [load_env, findEnvFile_eq, h0, h1, h2]
  · intro h0 h1 h2
    simp [load_env, findEnvFile_eq, h0, h1, h2]
  · intro key v hv
    cases h0 : fileExists cwd env_file <;>
      cases h1 : fileExists (parentDir cwd) env_file <;>
        cases h2 : fileExists (parentDir (parentDir cwd)) env_file <;>
          simp [load_env, findEnvFile_eq, h0, h1, h2, load_dotenv, hv]

/-- Witness for C6: `.env` exists only in `/home`, two levels above the
working directory `/home/user/proj`; it is found and applied, and the
already-set variable `KEEP` keeps its value. -/
theorem load_env_search_and_no_override_witness :
    (fsW cwdW ".env" = false ∧ fsW (parentDir cwdW) ".env" = false ∧
      fsW (parentDir (parentDir cwdW)) ".env" = true) ∧
    load_env fsW fvW cwdW ".env" envW5 =
      (true, load_dotenv (fvW (parentDir (parentDir cwdW))) envW5) ∧
    (envW5 "KEEP" = some "kept" ∧
      (load_env fsW fvW cwdW ".env" envW5).2 "KEEP" = some "kept") ∧
    ((load_env fsW fvW cwdW ".env" envW5).1 = true ↔
      (fsW cwdW ".env" = true ∨ fsW (parentDir cwdW) ".env" = true ∨
        fsW (parentDir (parentDir cwdW)) ".env" = true)) :=
  ⟨by decide,
   (load_env_search_and_no_override fsW fvW cwdW ".env" envW5).2.1
      (by decide) (by decide) (by decide),
   ⟨by decide,
    (load_env_search_and_no_override fsW fvW cwdW ".env" envW5).2.2
      "KEEP" "kept" (by decide)⟩,
   (load_env_search_and_no_override fsW fvW cwdW ".env" envW5).1⟩

end EnvLoader

namespace GithubAgent

open EnvLoader

/-- C2: if the repository identifier is non-empty and not a substring of the
query text, the dispatched query is the query with the identifier appended
exactly once after the separator phrase `" in "` — composing again changes
nothing — and if the identifier is empty or already a substring, the
dispatched query is the query unchanged. -/
theorem full_query_appends_once (query repo : String) :
    (repo ≠ "" → ¬ (repo.data <:+: query.data) →
      full_query query repo = query ++ " in " ++ repo ∧
      full_query (full_query query repo) repo = full_query query repo) ∧
    (repo = "" ∨ repo.data <:+: query.data → full_query query repo = query) := by
  constructor
  · intro hne hnin
    have h1 : full_query query repo = query ++ " in " ++ repo := by
      simp [full_query, hne, hnin]
    refine ⟨h1, ?_⟩
    have hin : repo.data <:+: (query ++ " in " ++ repo).data := by
      refine ⟨(query ++ " in ").data, [], ?_⟩
      simp [String.data_append]
    have h2 : full_query (query ++ " in " ++ repo) repo = query ++ " in " ++ repo := by
      simp only [full_query]
      rw [if_neg]
      intro hc
      exact hc.2 hin
    rw [h1, h2]
  · intro h
    rcases h with h | hin
    · simp [full_query, h]
    · simp [full_query, hin]

/-- Witness for C2 at a concrete query and repository identifier: the
identifier is appended once, recomposition is a no-op, and an identifier
already present leaves the query unchanged. -/
theorem full_query_appends_once_witness :
    (("octo/repo" : String) ≠ "" ∧
      ¬ (("octo/repo").data <:+: ("Show recent PRs").data) ∧
      full_query "Show recent PRs" "octo/repo" = "Show recent PRs" ++ " in " ++ "octo/repo" ∧
      full_query (full_query "Show recent PRs" "octo/repo") "octo/repo" =
        full_query "Show recent PRs" "octo/repo") ∧
    (("octo/repo").data <:+: ("Show PRs in octo/repo").data ∧
      full_query "Show PRs in octo/repo" "octo/repo" = "Show PRs in octo/repo") ∧
    full_query "Show PRs" "" = "Show PRs" :=
  ⟨⟨by decide, by decide,
    (full_query_appends_once "Show recent PRs" "octo/repo").1 (by decide) (by decide)⟩,
   ⟨by decide,
    (full_query_appends_once "Show PRs in octo/repo" "octo/repo").2 (Or.inr (by decide))⟩,
   (full_query_appends_once "Show PRs" "").2 (Or.inl rfl)⟩

/-- C3: with the GitHub token absent (falsy) in the environment,
`run_github_agent` returns the fixed missing-GitHub-credential message with an
empty event trace (no process launch, no connection, no remote call), for any
outcome oracle and message; with the token present but the AI-provider key
absent it likewise returns the fixed missing-AI-provider-credential message
with an empty trace. -/
theorem run_github_agent_missing_credentials (env : String → Option String)
    (outcome : AgentOutcome) (message : String) :
    (truthy (env "GITHUB_TOKEN") = false →
      run_github_agent env outcome message = ("Error: GitHub token not provided", [])) ∧
    (truthy (env "GITHUB_TOKEN") = true → truthy (env "OPENAI_API_KEY") = false →
      run_github_agent env outcome message = ("Error: OpenAI API key not provided", [])) := by
  constructor
  · intro h
    simp [run_github_agent, h]
  · intro h1 h2
    simp [run_github_agent, h1, h2]

/-- Witness for C3: an environment without the GitHub token yields the GitHub
message and no events; one with the token but no AI-provider key yields the
AI-provider message and no events. -/
theorem run_github_agent_missing_credentials_witness :
    (truthy (envW1 "GITHUB_TOKEN") = false ∧
      run_github_agent envW1 (.success "hi") "q" = ("Error: GitHub token not provided", [])) ∧
    (truthy (envW3 "GITHUB_TOKEN") = true ∧ truthy (envW3 "OPENAI_API_KEY") = false ∧
      run_github_agent envW3 (.success "hi") "q" = ("Error: OpenAI API key not provided", [])) :=
  ⟨⟨by decide, (run_github_agent_missing_credentials envW1 (.success "hi") "q").1 (by decide)⟩,
   ⟨by decide, by decide,
    (run_github_agent_missing_credentials envW3 (.success "hi") "q").2 (by decide) (by decide)⟩⟩

/-- C4: with both credentials present, when the remote call exceeds the fixed
bound (`timeout_seconds = 120`) `run_github_agent` returns the fixed timed-out
message, and the scoped tool connection is released on this exit path: the
trace ends with `.disconnect` after the remote call. -/
theorem run_github_agent_timeout_releases (env : String → Option String)
    (message : String) :
    truthy (env "GITHUB_TOKEN") = true → truthy (env "OPENAI_API_KEY") = true →
    timeout_seconds = 120 ∧
    run_github_agent env .timeout message =
      ("Error: Request timed out after 120 seconds",
        [.launch, .connect, .remoteCall, .disconnect]) ∧
    Event.disconnect ∈ (run_github_agent env .timeout message).2 := by
  intro h1 h2
  have h : run_github_agent env .timeout message =
      ("Error: Request timed out after 120 seconds",
        [.launch, .connect, .remoteCall, .disconnect]) := by
    simp [run_github_agent, h1, h2]
  refine ⟨rfl, h, ?_⟩
  rw [h]
  simp

/-- Witness for C4 at an environment with both credentials. -/
theorem run_github_agent_timeout_releases_witness :
    (truthy (envW2 "GITHUB_TOKEN") = true ∧ truthy (envW2 "OPENAI_API_KEY") = true) ∧
    (timeout_seconds = 120 ∧
      run_github_agent envW2 .timeout "q" =
        ("Error: Request timed out after 120 seconds",
          [.launch, .connect, .remoteCall, .disconnect]) ∧
      Event.disconnect ∈ (run_github_agent envW2 .timeout "q").2) :=
  ⟨⟨by decide, by decide⟩,
   run_github_agent_timeout_releases envW2 "q" (by decide) (by decide)⟩

/-- C5: with both credentials present, when the remote call (or the tool
connection in use) raises an arbitrary failure other than the timeout,
`run_github_agent` returns a plain string containing the description of the
failure — no structured error propagates, the function value is a string —
and the tool connection is released (.disconnect is in the trace). -/
theorem run_github_agent_failure_releases (env : String → Option String)
    (message desc : String) :
    truthy (env "GITHUB_TOKEN") = true → truthy (env "OPENAI_API_KEY") = true →
    (run_github_agent env (.failure desc) message).1 = "Error: " ++ desc ∧
    desc.data <:+: (run_github_agent env (.failure desc) message).1.data ∧
    Event.disconnect ∈ (run_github_agent env (.failure desc) message).2 := by
  intro h1 h2
  have h : run_github_agent env (.failure desc) message =
      ("Error: " ++ desc, [.launch, .connect, .remoteCall, .disconnect]) := by
    simp [run_github_agent, h1, h2]
  refine ⟨by rw [h], ?_, by rw [h]; simp⟩
  rw [h]
  exact ⟨("Error: ").data, [], by simp [String.data_append]⟩

/-- Witness for C5 at a concrete failure description. -/
theorem run_github_agent_failure_releases_witness :
    (truthy (envW2 "GITHUB_TOKEN") = true ∧ truthy (envW2 "OPENAI_API_KEY") = true) ∧
    ((run_github_agent envW2 (.failure "docker not found") "q").1 =
        "Error: " ++ "docker not found" ∧
      ("docker not found").data <:+:
        (run_github_agent envW2 (.failure "docker not found") "q").1.data ∧
      Event.disconnect ∈ (run_github_agent envW2 (.failure "docker not found") "q").2) :=
  ⟨⟨by decide, by decide⟩,
   run_github_agent_failure_releases envW2 "q" "docker not found"
      (by decide) (by decide)⟩

/-- C7: the launch descriptor environment map binds
`GITHUB_PERSONAL_ACCESS_TOKEN` to the value of `GITHUB_TOKEN` and
`GITHUB_TOOLSETS` to the fixed literal `repos,issues,pull_requests`, with
these two injected values taking precedence over anything inherited (the map
is independent of the inherited values at those keys), and every other key is
passed through unchanged from the inherited environment. -/
theorem server_params_env_injects_two (env inherited : String → Option String) :
    server_params_env env "GITHUB_PERSONAL_ACCESS_TOKEN" = env "GITHUB_TOKEN" ∧
    server_params_env env "GITHUB_TOOLSETS" = some github_toolsets ∧
    github_toolsets = "repos,issues,pull_requests" ∧
    (∀ key, key ≠ "GITHUB_PERSONAL_ACCESS_TOKEN" → key ≠ "GITHUB_TOOLSETS" →
      server_params_env env key = env key) ∧
    (env "GITHUB_TOKEN" = inherited "GITHUB_TOKEN" →
      server_params_env env "GITHUB_PERSONAL_ACCESS_TOKEN" =
        server_params_env inherited "GITHUB_PERSONAL_ACCESS_TOKEN" ∧
      server_params_env env "GITHUB_TOOLSETS" =
        server_params_env inherited "GITHUB_TOOLSETS") := by
  refine ⟨rfl, rfl, rfl, ?_, ?_⟩
  · intro key h1 h2
    simp [server_params_env, h1, h2]
  · intro h
    constructor
    · show env "GITHUB_TOKEN" = inherited "GITHUB_TOKEN"
      exact h
    · rfl

/-- Witness for C7: even when the inherited environment already sets both
injected keys, the descriptor map carries the token and the fixed capability
list, and an unrelated key passes through. -/
theorem server_params_env_injects_two_witness :
    server_params_env envW2 "GITHUB_PERSONAL_ACCESS_TOKEN" = envW2 "GITHUB_TOKEN" ∧
    server_params_env envW2 "GITHUB_TOOLSETS" = some github_toolsets ∧
    github_toolsets = "repos,issues,pull_requests" ∧
    (("OPENAI_API_KEY" : String) ≠ "GITHUB_PERSONAL_ACCESS_TOKEN" ∧
      ("OPENAI_API_KEY" : String) ≠ "GITHUB_TOOLSETS" ∧
      server_params_env envW2 "OPENAI_API_KEY" = envW2 "OPENAI_API_KEY") :=
  ⟨(server_params_env_injects_two envW2 envW2).1,
   (server_params_env_injects_two envW2 envW2).2.1,
   (server_params_env_injects_two envW2 envW2).2.2.1,
   ⟨by decide, by decide,
    (server_params_env_injects_two envW2 envW2).2.2.2.1 "OPENAI_API_KEY"
      (by decide) (by decide)⟩⟩

end GithubAgent
